import Mathlib

/-!
Verification development for `git_chron_job.py`, a single-file Python program
that validates a repository path, runs `git log --pretty=format:%cd
--date=iso-strict` as a subprocess, parses each output line as an ISO-8601
timestamp, converts it to the `America/Los_Angeles` timezone, sorts the
results ascending, prints a report, and returns the sorted list (or `None`
on any failure).

The embedding below translates the program into pure Lean functions.
External effects (filesystem existence checks, the subprocess, printing)
are made explicit: the environment supplies the filesystem and the
subprocess outcome, and the function returns the list of strings passed to
`print` together with the number of subprocess invocations.
-/

/-- A parsed timezone-aware datetime, as produced by Python
`datetime.fromisoformat` and `astimezone`: a naive wall-clock reading plus
a fixed UTC offset in minutes.  Python's `datetime` stores exactly these
components (microseconds are always zero here because `--date=iso-strict`
emits whole seconds). -/
structure DateTime where
  year : Int
  month : Nat
  day : Nat
  hour : Nat
  minute : Nat
  second : Nat
  offsetMin : Int
deriving Repr, DecidableEq, Inhabited

/-- Days since 1970-01-01 of a civil date (proleptic Gregorian calendar),
the standard `days_from_civil` computation used by calendar libraries.
Divisions are Euclidean, which on these operands is floor division. -/
def daysFromCivil (y : Int) (m d : Nat) : Int :=
  let y' : Int := if m ≤ 2 then y - 1 else y
  let era : Int := y'.ediv 400
  let yoe : Nat := (y' - era * 400).toNat
  let mp : Nat := (m + 9) % 12
  let doy : Nat := (153 * mp + 2) / 5 + d - 1
  let doe : Nat := 365 * yoe + yoe / 4 - yoe / 100 + doy
  era * 146097 + (doe : Int) - 719468

/-- Inverse of `daysFromCivil`: the civil date (year, month, day) of a count
of days since 1970-01-01. -/
def civilFromDays (z : Int) : Int × Nat × Nat :=
  let z' : Int := z + 719468
  let era : Int := z'.ediv 146097
  let doe : Nat := (z' - era * 146097).toNat
  let yoe : Nat := (doe - doe / 1460 + doe / 36524 - doe / 146096) / 365
  let doy : Nat := doe - (365 * yoe + yoe / 4 - yoe / 100)
  let mp : Nat := (5 * doy + 2) / 153
  let d : Nat := doy - (153 * mp + 2) / 5 + 1
  let m : Nat := if mp < 10 then mp + 3 else mp - 9
  (if m ≤ 2 then era * 400 + (yoe : Int) + 1 else era * 400 + (yoe : Int), m, d)

/-- The instant a `DateTime` denotes, as seconds since the Unix epoch.
Python compares timezone-aware datetimes by exactly this value. -/
def toEpoch (dt : DateTime) : Int :=
  86400 * daysFromCivil dt.year dt.month dt.day
    + 3600 * (dt.hour : Int) + 60 * (dt.minute : Int) + (dt.second : Int)
    - 60 * dt.offsetMin

/-- UTC second of the daylight-saving start for `America/Los_Angeles` in
year `y` under the post-2006 United States rule: the second Sunday of March
at 02:00 standard time, i.e. 10:00 UTC. -/
def dst_start (y : Int) : Int :=
  let d1 := daysFromCivil y 3 1
  let firstSun := d1 + (7 - (d1 + 4).emod 7).emod 7
  86400 * (firstSun + 7) + 36000

/-- UTC second of the daylight-saving end for `America/Los_Angeles` in year
`y` under the post-2006 United States rule: the first Sunday of November at
02:00 daylight time, i.e. 09:00 UTC. -/
def dst_end (y : Int) : Int :=
  let d1 := daysFromCivil y 11 1
  let firstSun := d1 + (7 - (d1 + 4).emod 7).emod 7
  86400 * firstSun + 32400

/-- Whether the UTC instant `t` (epoch seconds) falls in the daylight-saving
period of `America/Los_Angeles`.  Model of the IANA tz database entry used
by `pytz.timezone('America/Los_Angeles')`, exact for years 2007 onward
(which covers every instant the specification exercises). -/
def in_dst (t : Int) : Bool :=
  let y := (civilFromDays (t.ediv 86400)).1
  decide (dst_start y ≤ t ∧ t < dst_end y)

/-- UTC offset in minutes of `America/Los_Angeles` at instant `t`:
-420 (PDT) during daylight saving, -480 (PST) otherwise. -/
def la_offset_min (t : Int) : Int :=
  if in_dst t then -420 else -480

/-- Model of `datetime.astimezone(pytz.timezone('America/Los_Angeles'))`:
keep the instant, re-express the wall clock in the Los Angeles offset in
force at that instant. -/
def astimezone_la (dt : DateTime) : DateTime :=
  let t := toEpoch dt
  let off := la_offset_min t
  let localSec := t + off * 60
  let days := localSec.ediv 86400
  let sod := (localSec.emod 86400).toNat
  let ymd := civilFromDays days
  { year := ymd.1, month := ymd.2.1, day := ymd.2.2,
    hour := sod / 3600, minute := sod % 3600 / 60, second := sod % 60,
    offsetMin := off }

/-- Value of a decimal digit character. -/
def digitVal (c : Char) : Option Nat :=
  if c.isDigit then some (c.toNat - 48) else none

/-- Read exactly two decimal digits. -/
def parse2 : List Char → Option (Nat × List Char)
  | a :: b :: rest =>
    match digitVal a, digitVal b with
    | some x, some y => some (10 * x + y, rest)
    | _, _ => none
  | _ => none

/-- Read exactly four decimal digits. -/
def parse4 : List Char → Option (Nat × List Char)
  | a :: b :: c :: d :: rest =>
    match digitVal a, digitVal b, digitVal c, digitVal d with
    | some x, some y, some z, some w => some (1000 * x + 100 * y + 10 * z + w, rest)
    | _, _, _, _ => none
  | _ => none

/-- Consume one expected character. -/
def expectChar (c : Char) : List Char → Option (List Char)
  | x :: rest => if x = c then some rest else none
  | [] => none

/-- Gregorian leap-year test, as in Python's `calendar`/`datetime`. -/
def isLeapYear (y : Int) : Bool :=
  decide (y.emod 4 = 0 ∧ (y.emod 100 ≠ 0 ∨ y.emod 400 = 0))

/-- Number of days in month `m` of year `y`. -/
def daysInMonth (y : Int) (m : Nat) : Nat :=
  if m = 2 then (if isLeapYear y then 29 else 28)
  else if m = 4 ∨ m = 6 ∨ m = 9 ∨ m = 11 then 30 else 31

/-- Read a numeric UTC offset `±HH:MM` (minutes, signed). -/
def parseOffset : List Char → Option (Int × List Char)
  | c :: rest =>
    if c = '+' ∨ c = '-' then
      match parse2 rest with
      | some (h, rest1) =>
        match expectChar ':' rest1 with
        | some rest2 =>
          match parse2 rest2 with
          | some (m, rest3) =>
            if h ≤ 23 ∧ m ≤ 59 then
              some (if c = '-' then -(60 * (h : Int) + (m : Int)) else 60 * (h : Int) + (m : Int), rest3)
            else none
          | none => none
        | none => none
      | none => none
    else none
  | [] => none

/-- Core of the ISO-8601 parser: `YYYY-MM-DD` then `T` or a space, then
`HH:MM:SS`, then a mandatory `±HH:MM` offset, with the same component
range checks the `datetime` constructor performs. -/
def parseCore (cs : List Char) : Option DateTime := do
  let (y, cs1) ← parse4 cs
  let cs2 ← expectChar '-' cs1
  let (mo, cs3) ← parse2 cs2
  let cs4 ← expectChar '-' cs3
  let (d, cs5) ← parse2 cs4
  match cs5 with
  | [] => none
  | sep :: cs6 =>
    if sep = 'T' ∨ sep = ' ' then do
      let (h, cs7) ← parse2 cs6
      let cs8 ← expectChar ':' cs7
      let (mi, cs9) ← parse2 cs8
      let cs10 ← expectChar ':' cs9
      let (s, cs11) ← parse2 cs10
      let (off, cs12) ← parseOffset cs11
      if cs12 = [] ∧ 1 ≤ y ∧ 1 ≤ mo ∧ mo ≤ 12 ∧ 1 ≤ d ∧ d ≤ daysInMonth (y : Int) mo
          ∧ h ≤ 23 ∧ mi ≤ 59 ∧ s ≤ 59 then
        some { year := (y : Int), month := mo, day := d,
               hour := h, minute := mi, second := s, offsetMin := off }
      else none
    else none

/-- Model of `datetime.fromisoformat`, restricted to the timezone-aware
instants the specification is about (git `--date=iso-strict` output:
`YYYY-MM-DDTHH:MM:SS±HH:MM`); anything else — including offset-less or
date-only strings, which the program's input domain never contains — is a
parse failure.  On failure the error text is the `ValueError` message
`Invalid isoformat string: '<input>'` (out-of-range components are
modelled with the same uniform message). -/
def fromisoformat (s : String) : Except String DateTime :=
  match parseCore s.data with
  | some dt => Except.ok dt
  | none => Except.error ("Invalid isoformat string: '" ++ s ++ "'")

/-- Model of `date_str.replace('Z', '+00:00')`: every occurrence of the
character `Z` is replaced by `+00:00`. -/
def replaceZ (s : String) : String :=
  String.mk (s.data.foldr
    (fun c acc => (if c = 'Z' then ['+', '0', '0', ':', '0', '0'] else [c]) ++ acc) [])

/-- Helper for `splitlines`: walk the characters, accumulating the current
line in reverse. -/
def splitlinesAux : List Char → List Char → List String
  | [], cur => if cur = [] then [] else [String.mk cur.reverse]
  | c :: rest, cur =>
    if c = '\n' then String.mk cur.reverse :: splitlinesAux rest []
    else splitlinesAux rest (c :: cur)

/-- Model of Python `str.splitlines()` on subprocess output captured with
`universal_newlines=True` (where every line break is already normalized to
`\n`): split on `\n`, with no empty final element for a trailing newline. -/
def splitlines (s : String) : List String :=
  splitlinesAux s.data []

/-- Model of `os.path.join(a, b)` for the relative component `b = ".git"`:
empty left part gives `b`, a trailing separator is not doubled, otherwise
a separator is inserted. -/
def path_join (a b : String) : String :=
  if a = "" then b
  else if a.data.getLast? = some '/' then a ++ b
  else a ++ "/" ++ b

/-- Truthiness of `date_str.strip()` being empty: every character is
whitespace. -/
def is_blank (l : String) : Bool :=
  l.data.all (fun c => c.isWhitespace)

/-- Ordering on parsed datetimes used by `parsed_dates.sort()`: Python
compares timezone-aware datetimes by instant. -/
def dtLE (a b : DateTime) : Prop :=
  toEpoch a ≤ toEpoch b

instance : DecidableRel dtLE :=
  fun a b => Int.decLe (toEpoch a) (toEpoch b)

instance : IsTotal DateTime dtLE :=
  ⟨fun a b => Int.le_total (toEpoch a) (toEpoch b)⟩

instance : IsTrans DateTime dtLE :=
  ⟨fun _ _ _ hab hbc => Int.le_trans hab hbc⟩

/-- Outcome of the `git log` subprocess: a completed run with an exit code
and captured combined output, or an exception raised while spawning or
running it (for example `FileNotFoundError` when `git` is not on the
execution path), which `subprocess.check_output` lets propagate into the
program's generic `except Exception` handler. -/
inductive GitResult where
  | ran (exitCode : Nat) (output : String)
  | raised (msg : String)
deriving Repr, DecidableEq

/-- The external world as the program observes it: which paths exist on the
filesystem, and what the single `git log` invocation would yield. -/
structure Env where
  path_exists : String → Bool
  git_log : GitResult

/-- Observable effects of one call: the strings passed to `print`, in
order, and how many times the subprocess was invoked (or its invocation
attempted). -/
structure Effects where
  prints : List String
  git_calls : Nat
deriving Repr, DecidableEq

/-- One iteration of the parse loop in `get_commit_log` (lines 43–53 of the
source): skip blank lines; on a successful parse of the `Z`-normalized
line, append the Los Angeles conversion; on a `ValueError`, print a warning
naming the original text and the error. -/
def parse_line_step (acc : List String × List DateTime) (date_str : String) :
    List String × List DateTime :=
  if is_blank date_str then acc
  else
    match fromisoformat (replaceZ date_str) with
    | Except.ok utc_time => (acc.1, acc.2 ++ [astimezone_la utc_time])
    | Except.error e =>
        (acc.1 ++ ["Warning: Could not parse date '" ++ date_str ++ "': " ++ e], acc.2)

/-- The whole parse loop: fold `parse_line_step` over the output lines,
yielding the warnings printed and the dates collected. -/
def parse_lines (ls : List String) : List String × List DateTime :=
  ls.foldl parse_line_step ([], [])

/-- The 60-character separator rule `"-" * 60`. -/
def rule60 : String :=
  String.mk (List.replicate 60 '-')

/-- English weekday name, `w` counted with Sunday = 0 (as produced by
`weekday_of`). -/
def weekday_name (w : Nat) : String :=
  if w = 0 then "Sunday" else if w = 1 then "Monday" else if w = 2 then "Tuesday"
  else if w = 3 then "Wednesday" else if w = 4 then "Thursday"
  else if w = 5 then "Friday" else "Saturday"

/-- Weekday of a `DateTime`'s civil date, Sunday = 0 (1970-01-01 was a
Thursday). -/
def weekday_of (dt : DateTime) : Nat :=
  ((daysFromCivil dt.year dt.month dt.day + 4).emod 7).toNat

/-- Two-digit zero padding (`%m`, `%d`, `%H`, `%M`, `%S`). -/
def pad2 (n : Nat) : String :=
  if n < 10 then "0" ++ toString n else toString n

/-- Four-digit zero padding for `%Y` (years here are 1–9999). -/
def pad4 (n : Int) : String :=
  if n < 10 then "000" ++ toString n
  else if n < 100 then "00" ++ toString n
  else if n < 1000 then "0" ++ toString n
  else toString n

/-- `%Z` for a datetime carrying a Los Angeles offset: the zone
abbreviation pytz reports. -/
def tz_abbrev (dt : DateTime) : String :=
  if dt.offsetMin = -420 then "PDT" else "PST"

/-- Model of `pst_time.strftime('%A, %Y-%m-%d %H:%M:%S %Z')`. -/
def format_line (dt : DateTime) : String :=
  weekday_name (weekday_of dt) ++ ", " ++ pad4 dt.year ++ "-" ++ pad2 dt.month
    ++ "-" ++ pad2 dt.day ++ " " ++ pad2 dt.hour ++ ":" ++ pad2 dt.minute
    ++ ":" ++ pad2 dt.second ++ " " ++ tz_abbrev dt

/-- Embedding of `get_commit_log(repo_path)`: validate the path and the
`.git` marker, run `git log`, parse and convert each line, and either
report a failure (returning `none`, Python's `None`) or sort, print the
report and return the sorted dates. -/
def get_commit_log (env : Env) (repo_path : String) :
    Effects × Option (List DateTime) :=
  if env.path_exists repo_path = false then
    (⟨["Error: Path '" ++ repo_path ++ "' does not exist."], 0⟩, none)
  else if env.path_exists (path_join repo_path ".git") = false then
    (⟨["Error: '" ++ repo_path ++ "' is not a valid Git repository."], 0⟩, none)
  else
    match env.git_log with
    | GitResult.raised msg => (⟨["Unexpected error: " ++ msg], 1⟩, none)
    | GitResult.ran exitCode log_output =>
      if exitCode = 0 then
        let wp := parse_lines (splitlines log_output)
        if wp.2 = [] then
          (⟨wp.1 ++ ["Warning: No valid commit dates found in repository '"
              ++ repo_path ++ "'"], 1⟩, none)
        else
          let sorted := List.insertionSort dtLE wp.2
          (⟨wp.1 ++
              ["\nCommit dates and times (PST) for repository at '" ++ repo_path ++ "':",
               rule60] ++ sorted.map format_line ++
              [rule60, "Total commits: " ++ toString sorted.length], 1⟩,
           some sorted)
      else
        (⟨["Error running git command: " ++ log_output], 1⟩, none)

/-- The usage message printed on a wrong argument count. -/
def usage_msg : String :=
  "Usage: python3 git_chron_job.py <path_to_git_repo>"

/-- Result of one run of the command-line entry point: the process exit
status, the printed strings, and how many times `get_commit_log` was
invoked. -/
structure MainResult where
  exit_code : Nat
  prints : List String
  inspector_calls : Nat
deriving Repr, DecidableEq

/-- Embedding of `main()`: `sys.argv` (program name included) must have
length 2, otherwise print the usage text and exit 1; with exactly one
positional argument, call `get_commit_log` and fall off the end (exit 0). -/
def main_entry (env : Env) (argv : List String) : MainResult :=
  if argv.length ≠ 2 then
    ⟨1, [usage_msg], 0⟩
  else
    ⟨0, (get_commit_log env (argv.getD 1 "")).1.prints, 1⟩

/-- Lines of the full standard-output stream: each `print(s)` call writes
`s` followed by a newline, so the stream's lines are the concatenation of
the lines of each printed chunk. -/
def stdout_lines (prints : List String) : List String :=
  prints.foldr (fun s acc => splitlines (s ++ "\n") ++ acc) []

/-- Whether a line parses as a timezone-aware instant after `Z`
normalization. -/
def parses (l : String) : Bool :=
  match fromisoformat (replaceZ l) with
  | Except.ok _ => true
  | Except.error _ => false

/-- Lines contributing a timestamp: non-blank and parseable. -/
def good_line (l : String) : Bool :=
  !is_blank l && parses l

/-- Lines triggering a parse warning: non-blank and unparseable. -/
def bad_line (l : String) : Bool :=
  !is_blank l && !parses l

/-- The parse-error text of a line (empty on success, unused there). -/
def err_of (l : String) : String :=
  match fromisoformat (replaceZ l) with
  | Except.ok _ => ""
  | Except.error e => e

/-- The warning printed for an unparseable line, naming the offending text
and the parse error. -/
def warn_of (l : String) : String :=
  "Warning: Could not parse date '" ++ l ++ "': " ++ err_of l

/-- The Los Angeles conversion of a parseable line (arbitrary default on
unparseable lines, which never contribute). -/
def conv_line (l : String) : DateTime :=
  match fromisoformat (replaceZ l) with
  | Except.ok dt => astimezone_la dt
  | Except.error _ => default

/-- Environment with every path present and a zero-commit (empty) log. -/
def env_c1n : Env :=
  ⟨fun _ => true, GitResult.ran 0 ""⟩

/-- Environment whose log holds the two spec instants, deliberately out of
chronological order. -/
def env_c1w : Env :=
  ⟨fun _ => true, GitResult.ran 0 "2024-07-15T12:00:00Z\n2024-01-15T12:00:00-05:00"⟩

/-- Environment whose log holds the two timezone-correctness instants. -/
def env_c2 : Env :=
  ⟨fun _ => true, GitResult.ran 0 "2024-01-15T12:00:00-05:00\n2024-07-15T12:00:00Z"⟩

/-- Environment whose log holds one valid line and the literal
`not-a-date`. -/
def env_c3 : Env :=
  ⟨fun _ => true, GitResult.ran 0 "2024-01-15T12:00:00-05:00\nnot-a-date"⟩

/-- Environment where no path exists. -/
def env_c4a : Env :=
  ⟨fun _ => false, GitResult.ran 0 ""⟩

/-- Environment where only the path `r` exists (so `r/.git` does not). -/
def env_c4b : Env :=
  ⟨fun p => decide (p = "r"), GitResult.ran 0 ""⟩

/-- Environment whose git invocation fails with exit code 128. -/
def env_c5 : Env :=
  ⟨fun _ => true, GitResult.ran 128 "fatal: not a git repository"⟩

/-- Environment with an empty commit log. -/
def env_c6 : Env :=
  ⟨fun _ => true, GitResult.ran 0 ""⟩

/-- Environment used to exercise the entry point. -/
def env_c7 : Env :=
  ⟨fun _ => false, GitResult.ran 0 ""⟩

/-- Environment whose log holds a single valid commit line. -/
def env_c8 : Env :=
  ⟨fun _ => true, GitResult.ran 0 "2024-01-15T12:00:00-05:00"⟩

/-- Environment whose git invocation raises an unanticipated exception. -/
def env_c9 : Env :=
  ⟨fun _ => true, GitResult.raised "boom"⟩

/-- Environment whose log holds a single valid commit line. -/
def env_c10 : Env :=
  ⟨fun _ => true, GitResult.ran 0 "2024-01-15T12:00:00-05:00"⟩

/-- Characters of an appended string. -/
theorem data_app (s t : String) : (s ++ t).data = s.data ++ t.data := by
  cases s
  cases t
  rfl

/-- Taking two characters of an append whose left part has at least two. -/
theorem take2_append_data : ∀ (cs ds : List Char), 2 ≤ cs.length →
    (cs ++ ds).take 2 = cs.take 2
  | _ :: _ :: _, _, _ => rfl
  | [], _, h => by simp at h
  | [_], _, h => by simp at h

/-- Strings whose first two characters differ are different. -/
theorem ne_of_take2 {s t : String} (h : s.data.take 2 ≠ t.data.take 2) :
    s ≠ t :=
  fun he => h (congrArg (fun u => u.data.take 2) he)

/-- Characterization of the parse loop: starting from any accumulator, it
appends one warning per non-blank unparseable line and one converted
timestamp per non-blank parseable line, in input order. -/
theorem parse_loop_spec (ls : List String) (acc : List String × List DateTime) :
    ls.foldl parse_line_step acc =
      (acc.1 ++ (ls.filter bad_line).map warn_of,
       acc.2 ++ (ls.filter good_line).map conv_line) := by
  induction ls generalizing acc with
  | nil => simp
  | cons l ls ih =>
    rw [List.foldl_cons, ih]
    cases hb : is_blank l with
    | true =>
      have hg : good_line l = false := by simp [good_line, hb]
      have hbad : bad_line l = false := by simp [bad_line, hb]
      simp [parse_line_step, hb, hg, hbad]
    | false =>
      cases hp : fromisoformat (replaceZ l) with
      | ok dt =>
        have hg : good_line l = true := by simp [good_line, parses, hb, hp]
        have hbad : bad_line l = false := by simp [bad_line, parses, hb, hp]
        simp [parse_line_step, hb, hp, hg, hbad, conv_line]
      | error e =>
        have hg : good_line l = false := by simp [good_line, parses, hb, hp]
        have hbad : bad_line l = true := by simp [bad_line, parses, hb, hp]
        simp [parse_line_step, hb, hp, hg, hbad, warn_of, err_of]

/-- The parse loop from the empty accumulator. -/
theorem parse_lines_eq (ls : List String) :
    parse_lines ls =
      ((ls.filter bad_line).map warn_of, (ls.filter good_line).map conv_line) := by
  simpa [parse_lines] using parse_loop_spec ls ([], [])

/-- Shape of `get_commit_log` on the success path: valid path, `.git`
marker present, git exiting 0, and at least one timestamp parsed. -/
theorem get_commit_log_ok (env : Env) (rp output : String)
    (h1 : env.path_exists rp = true)
    (h2 : env.path_exists (path_join rp ".git") = true)
    (h3 : env.git_log = GitResult.ran 0 output)
    (h4 : (parse_lines (splitlines output)).2 ≠ []) :
    get_commit_log env rp =
      (⟨(parse_lines (splitlines output)).1 ++
          ["\nCommit dates and times (PST) for repository at '" ++ rp ++ "':", rule60]
          ++ (List.insertionSort dtLE (parse_lines (splitlines output)).2).map format_line
          ++ [rule60, "Total commits: "
                ++ toString (List.insertionSort dtLE (parse_lines (splitlines output)).2).length],
        1⟩,
       some (List.insertionSort dtLE (parse_lines (splitlines output)).2)) := by
  simp [get_commit_log, h1, h2, h3, h4]

/-- Shape of `get_commit_log` when git succeeds but no timestamp is
recovered. -/
theorem get_commit_log_empty (env : Env) (rp output : String)
    (h1 : env.path_exists rp = true)
    (h2 : env.path_exists (path_join rp ".git") = true)
    (h3 : env.git_log = GitResult.ran 0 output)
    (h4 : (parse_lines (splitlines output)).2 = []) :
    get_commit_log env rp =
      (⟨(parse_lines (splitlines output)).1 ++
          ["Warning: No valid commit dates found in repository '" ++ rp ++ "'"], 1⟩,
       none) := by
  simp [get_commit_log, h1, h2, h3, h4]

/-- C1 (amended): for a repository whose tool output consists of N ≥ 1
valid timestamp lines (each non-blank and parseable), `get_commit_log`
returns a sequence of length N that is monotonically non-decreasing by
instant, whatever the order the tool emitted the lines in. -/
theorem c1_sorted_output (env : Env) (rp output : String)
    (h1 : env.path_exists rp = true)
    (h2 : env.path_exists (path_join rp ".git") = true)
    (h3 : env.git_log = GitResult.ran 0 output)
    (h4 : splitlines output ≠ [])
    (h5 : ∀ l ∈ splitlines output, good_line l = true) :
    ∃ dates, (get_commit_log env rp).2 = some dates ∧
      dates.length = (splitlines output).length ∧
      List.Sorted dtLE dates := by
  have hfilter : (splitlines output).filter good_line = splitlines output :=
    List.filter_eq_self.mpr h5
  have hp2 : (parse_lines (splitlines output)).2 =
      (splitlines output).map conv_line := by
    rw [parse_lines_eq, hfilter]
  have hne : (parse_lines (splitlines output)).2 ≠ [] := by
    rw [hp2]
    simpa using h4
  have hmain := get_commit_log_ok env rp output h1 h2 h3 hne
  refine ⟨List.insertionSort dtLE (parse_lines (splitlines output)).2, ?_, ?_, ?_⟩
  · rw [hmain]
  · rw [List.length_insertionSort, hp2, List.length_map]
  · exact List.sorted_insertionSort dtLE _

/-- C1 counterexample at N = 0: with every path present and a git log of
zero timestamp lines, the function returns the no-data sentinel rather
than a sequence of length 0. -/
theorem c1_counterexample :
    (get_commit_log env_c1n "r").2 = none ∧
    ¬∃ dates : List DateTime, (get_commit_log env_c1n "r").2 = some dates ∧
        dates.length = (splitlines "").length := by
  have h : (get_commit_log env_c1n "r").2 = none := by decide
  refine ⟨h, ?_⟩
  rintro ⟨dates, hd, -⟩
  rw [h] at hd
  cases hd

/-- C1 witness: two valid lines emitted newest-first come back as a sorted
two-element sequence. -/
theorem c1_witness :
    ∃ dates, (get_commit_log env_c1w "r").2 = some dates ∧
      dates.length = (splitlines "2024-07-15T12:00:00Z\n2024-01-15T12:00:00-05:00").length ∧
      List.Sorted dtLE dates :=
  c1_sorted_output env_c1w "r" "2024-07-15T12:00:00Z\n2024-01-15T12:00:00-05:00"
    rfl rfl rfl (by decide) (by decide)

/-- C2: the spec's two instants convert through the tz-database model of
`America/Los_Angeles` exactly as claimed — `2024-01-15T12:00:00-05:00`
normalizes to `2024-01-15 09:00:00` PST and `2024-07-15T12:00:00Z` (after
the `Z` normalization the code performs) to `2024-07-15 05:00:00` PDT —
and the full pipeline returns exactly those converted values. -/
theorem c2_timezone_conversion :
    fromisoformat "2024-01-15T12:00:00-05:00" =
      Except.ok ⟨2024, 1, 15, 12, 0, 0, -300⟩ ∧
    astimezone_la ⟨2024, 1, 15, 12, 0, 0, -300⟩ = ⟨2024, 1, 15, 9, 0, 0, -480⟩ ∧
    tz_abbrev ⟨2024, 1, 15, 9, 0, 0, -480⟩ = "PST" ∧
    replaceZ "2024-07-15T12:00:00Z" = "2024-07-15T12:00:00+00:00" ∧
    fromisoformat "2024-07-15T12:00:00+00:00" =
      Except.ok ⟨2024, 7, 15, 12, 0, 0, 0⟩ ∧
    astimezone_la ⟨2024, 7, 15, 12, 0, 0, 0⟩ = ⟨2024, 7, 15, 5, 0, 0, -420⟩ ∧
    tz_abbrev ⟨2024, 7, 15, 5, 0, 0, -420⟩ = "PDT" ∧
    (get_commit_log env_c2 "r").2 =
      some [⟨2024, 1, 15, 9, 0, 0, -480⟩, ⟨2024, 7, 15, 5, 0, 0, -420⟩] :=
  ⟨rfl, rfl, rfl, rfl, rfl, rfl, rfl, rfl⟩

/-- C3: each non-blank unparseable line yields exactly one warning naming
the offending text and the parse error and is skipped while processing
continues; on one valid line plus the literal `not-a-date`, the result
holds exactly one timestamp and exactly one parse warning was printed. -/
theorem c3_malformed_line_resilience :
    (∀ ls : List String, parse_lines ls =
        ((ls.filter bad_line).map warn_of, (ls.filter good_line).map conv_line)) ∧
    (get_commit_log env_c3 "repo").2 = some [⟨2024, 1, 15, 9, 0, 0, -480⟩] ∧
    (get_commit_log env_c3 "repo").1.prints =
      ["Warning: Could not parse date 'not-a-date': Invalid isoformat string: 'not-a-date'",
       "\nCommit dates and times (PST) for repository at 'repo':", rule60,
       "Monday, 2024-01-15 09:00:00 PST", rule60, "Total commits: 1"] ∧
    warn_of "not-a-date" =
      "Warning: Could not parse date 'not-a-date': Invalid isoformat string: 'not-a-date'" :=
  ⟨parse_lines_eq, rfl, rfl, rfl⟩

/-- C4: a missing path yields exactly one does-not-exist message, no
subprocess invocation and the no-data result; an existing path without the
`.git` marker yields exactly one not-a-repository message, no subprocess
invocation and the no-data result. -/
theorem c4_path_validation (env : Env) (rp : String) :
    (env.path_exists rp = false →
      get_commit_log env rp =
        (⟨["Error: Path '" ++ rp ++ "' does not exist."], 0⟩, none)) ∧
    (env.path_exists rp = true → env.path_exists (path_join rp ".git") = false →
      get_commit_log env rp =
        (⟨["Error: '" ++ rp ++ "' is not a valid Git repository."], 0⟩, none)) := by
  constructor
  · intro h
    simp [get_commit_log, h]
  · intro h1 h2
    simp [get_commit_log, h1, h2]

/-- C4 witness: both validation failures at concrete inputs. -/
theorem c4_witness :
    get_commit_log env_c4a "r" =
      (⟨["Error: Path 'r' does not exist."], 0⟩, none) ∧
    get_commit_log env_c4b "r" =
      (⟨["Error: 'r' is not a valid Git repository."], 0⟩, none) :=
  ⟨(c4_path_validation env_c4a "r").1 rfl,
   (c4_path_validation env_c4b "r").2 (by decide) (by decide)⟩

/-- C5: a non-zero git exit status yields the tool-invocation error message
carrying the captured combined output, and the no-data result. -/
theorem c5_git_failure (env : Env) (rp : String) (code : Nat) (output : String)
    (h1 : env.path_exists rp = true)
    (h2 : env.path_exists (path_join rp ".git") = true)
    (h3 : env.git_log = GitResult.ran code output)
    (h4 : code ≠ 0) :
    get_commit_log env rp =
      (⟨["Error running git command: " ++ output], 1⟩, none) := by
  simp [get_commit_log, h1, h2, h3, h4]

/-- C5 witness: git exiting 128 with diagnostic output. -/
theorem c5_witness :
    get_commit_log env_c5 "r" =
      (⟨["Error running git command: fatal: not a git repository"], 1⟩, none) :=
  c5_git_failure env_c5 "r" 128 "fatal: not a git repository" rfl rfl rfl
    (by decide)

/-- C7: any argument count other than exactly one positional argument
prints the usage message and exits with status 1 without invoking the
inspector; exactly one positional argument invokes the inspector once and
exits with status 0. -/
theorem c7_usage_and_exit (env : Env) (argv : List String) :
    (argv.length ≠ 2 → main_entry env argv = ⟨1, [usage_msg], 0⟩) ∧
    (argv.length = 2 →
      (main_entry env argv).exit_code = 0 ∧
      (main_entry env argv).inspector_calls = 1 ∧
      (main_entry env argv).prints = (get_commit_log env (argv.getD 1 "")).1.prints) := by
  constructor
  · intro h
    simp [main_entry, h]
  · intro h
    simp [main_entry, h]

/-- C7 witness: zero positional arguments exit 1 with the usage text; one
positional argument (here a missing path, so no data is found) still exits
0 after one inspector call. -/
theorem c7_witness :
    main_entry env_c7 ["prog"] = ⟨1, [usage_msg], 0⟩ ∧
    (main_entry env_c7 ["prog", "x"]).exit_code = 0 ∧
    (main_entry env_c7 ["prog", "x"]).inspector_calls = 1 :=
  ⟨(c7_usage_and_exit env_c7 ["prog"]).1 (by decide),
   ((c7_usage_and_exit env_c7 ["prog", "x"]).2 rfl).1,
   ((c7_usage_and_exit env_c7 ["prog", "x"]).2 rfl).2.1⟩

/-- C9: whenever the operation yields the no-data sentinel it has printed
at least one message, and an unanticipated exception from the subprocess
machinery is caught and reported as a generic error with the no-data
result instead of propagating. -/
theorem c9_no_crash (env : Env) (rp : String) :
    ((get_commit_log env rp).2 = none → (get_commit_log env rp).1.prints ≠ []) ∧
    (∀ msg : String, env.path_exists rp = true →
      env.path_exists (path_join rp ".git") = true →
      env.git_log = GitResult.raised msg →
      get_commit_log env rp = (⟨["Unexpected error: " ++ msg], 1⟩, none)) := by
  constructor
  · intro hnone
    by_cases h1 : env.path_exists rp = false
    · simp [get_commit_log, h1]
    · by_cases h2 : env.path_exists (path_join rp ".git") = false
      · simp [get_commit_log, h1, h2]
      · rcases hg : env.git_log with ⟨code, output⟩ | msg
        · by_cases hc : code = 0
          · subst hc
            by_cases hnil : (parse_lines (splitlines output)).2 = []
            · simp [get_commit_log, h1, h2, hg, hnil]
            · exfalso
              simp [get_commit_log, h1, h2, hg, hnil] at hnone
          · simp [get_commit_log, h1, h2, hg, hc]
        · simp [get_commit_log, h1, h2, hg]
  · intro msg h1 h2 h3
    simp [get_commit_log, h1, h2, h3]

/-- C9 witness: a raised subprocess exception is converted into the generic
error message and the no-data result. -/
theorem c9_witness :
    get_commit_log env_c9 "r" = (⟨["Unexpected error: boom"], 1⟩, none) :=
  (c9_no_crash env_c9 "r").2 "boom" rfl rfl rfl

/-- C10: a non-sentinel result is never the empty list: whenever
`get_commit_log` returns a list at all, it holds at least one timestamp. -/
theorem c10_result_nonempty (env : Env) (rp : String) (dates : List DateTime)
    (h : (get_commit_log env rp).2 = some dates) : dates ≠ [] := by
  by_cases h1 : env.path_exists rp = false
  · simp [get_commit_log, h1] at h
  · by_cases h2 : env.path_exists (path_join rp ".git") = false
    · simp [get_commit_log, h1, h2] at h
    · rcases hg : env.git_log with ⟨code, output⟩ | msg
      · by_cases hc : code = 0
        · subst hc
          by_cases hnil : (parse_lines (splitlines output)).2 = []
          · simp [get_commit_log, h1, h2, hg, hnil] at h
          · have hsome : List.insertionSort dtLE (parse_lines (splitlines output)).2
                = dates := by
              simpa [get_commit_log, h1, h2, hg, hnil] using h
            intro hd
            apply hnil
            have hperm := List.perm_insertionSort dtLE (parse_lines (splitlines output)).2
            rw [hsome, hd] at hperm
            exact (hperm.symm).eq_nil
        · simp [get_commit_log, h1, h2, hg, hc] at h
      · simp [get_commit_log, h1, h2, hg] at h

/-- C10 witness: a one-commit repository yields a list, and the theorem
shows that list non-empty. -/
theorem c10_witness :
    ([⟨2024, 1, 15, 9, 0, 0, -480⟩] : List DateTime) ≠ [] :=
  c10_result_nonempty env_c10 "r" [⟨2024, 1, 15, 9, 0, 0, -480⟩] (by decide)

/-- Weekday names all have at least two characters and never begin with
the two characters of the warning prefix. -/
theorem weekday_take2 (w : Nat) :
    2 ≤ (weekday_name w).data.length ∧ (weekday_name w).data.take 2 ≠ ['W', 'a'] := by
  unfold weekday_name
  split_ifs <;> exact ⟨by decide, by decide⟩

/-- Parse warnings begin with the characters of `Warning`. -/
theorem warn_take2 (l : String) : (warn_of l).data.take 2 = ['W', 'a'] := by
  simp only [warn_of, data_app, List.append_assoc]
  rw [take2_append_data _ _ (by decide)]
  decide

/-- The empty-history warning begins with the characters of `Warning`. -/
theorem empty_warn_take2 (rp : String) :
    ("Warning: No valid commit dates found in repository '" ++ rp ++ "'").data.take 2
      = ['W', 'a'] := by
  simp only [data_app, List.append_assoc]
  rw [take2_append_data _ _ (by decide)]
  decide

/-- The report header begins with a newline and `C`. -/
theorem header_take2 (rp : String) :
    ("\nCommit dates and times (PST) for repository at '" ++ rp ++ "':").data.take 2
      = ['\n', 'C'] := by
  simp only [data_app, List.append_assoc]
  rw [take2_append_data _ _ (by decide)]
  decide

/-- The count line begins with `To`. -/
theorem count_take2 (n : Nat) :
    ("Total commits: " ++ toString n).data.take 2 = ['T', 'o'] := by
  simp only [data_app, List.append_assoc]
  rw [take2_append_data _ _ (by decide)]
  decide

/-- A formatted commit line begins with its weekday name's first two
characters. -/
theorem format_line_take2 (dt : DateTime) :
    (format_line dt).data.take 2 = (weekday_name (weekday_of dt)).data.take 2 := by
  simp only [format_line, data_app, List.append_assoc]
  rw [take2_append_data _ _ (weekday_take2 (weekday_of dt)).1]

/-- Unparseable lines never produce a timestamp. -/
theorem bad_line_false_of_good (l : String) (h : good_line l = true) :
    bad_line l = false := by
  have h' : (!is_blank l) = true ∧ parses l = true := by
    simpa [good_line] using h
  simp [bad_line, h'.2]

/-- C6: when git succeeds but no line yields a timestamp (no commits, or
every line failed to parse), the operation prints the per-line warnings
followed by the empty-history warning and returns the no-data sentinel;
no report header, rule, commit line or count line is printed. -/
theorem c6_empty_history (env : Env) (rp output : String)
    (h1 : env.path_exists rp = true)
    (h2 : env.path_exists (path_join rp ".git") = true)
    (h3 : env.git_log = GitResult.ran 0 output)
    (h5 : ∀ l ∈ splitlines output, good_line l = false) :
    get_commit_log env rp =
      (⟨((splitlines output).filter bad_line).map warn_of ++
          ["Warning: No valid commit dates found in repository '" ++ rp ++ "'"], 1⟩,
       none) ∧
    (∀ p ∈ (get_commit_log env rp).1.prints,
      p ≠ "\nCommit dates and times (PST) for repository at '" ++ rp ++ "':" ∧
      p ≠ rule60 ∧
      (∀ n : Nat, p ≠ "Total commits: " ++ toString n) ∧
      (∀ dt : DateTime, p ≠ format_line dt)) := by
  have hgood : (splitlines output).filter good_line = [] := by
    rw [List.filter_eq_nil_iff]
    intro l hl
    simp [h5 l hl]
  have hnil : (parse_lines (splitlines output)).2 = [] := by
    rw [parse_lines_eq]
    simp [hgood]
  have hwarn1 : (parse_lines (splitlines output)).1
      = ((splitlines output).filter bad_line).map warn_of := by
    rw [parse_lines_eq]
  have hmain := get_commit_log_empty env rp output h1 h2 h3 hnil
  rw [hwarn1] at hmain
  refine ⟨hmain, ?_⟩
  intro p hp
  rw [hmain] at hp
  have hp' : p ∈ ((splitlines output).filter bad_line).map warn_of ++
      ["Warning: No valid commit dates found in repository '" ++ rp ++ "'"] := by
    simpa using hp
  have hW : p.data.take 2 = ['W', 'a'] := by
    rcases List.mem_append.mp hp' with hmem | hmem
    · obtain ⟨l, -, rfl⟩ := List.mem_map.mp hmem
      exact warn_take2 l
    · rw [List.mem_singleton] at hmem
      subst hmem
      exact empty_warn_take2 rp
  refine ⟨?_, ?_, ?_, ?_⟩
  · exact ne_of_take2 (by rw [hW, header_take2]; decide)
  · exact ne_of_take2 (by rw [hW]; decide)
  · intro n
    exact ne_of_take2 (by rw [hW, count_take2]; decide)
  · intro dt
    refine ne_of_take2 ?_
    rw [hW, format_line_take2]
    intro hcontra
    exact (weekday_take2 (weekday_of dt)).2 hcontra.symm

/-- C6 witness: a repository with zero commits (empty git output) prints
only the empty-history warning and returns the no-data sentinel. -/
theorem c6_witness :
    get_commit_log env_c6 "r" =
      (⟨["Warning: No valid commit dates found in repository 'r'"], 1⟩, none) := by
  have h := (c6_empty_history env_c6 "r" "" rfl rfl rfl (by decide)).1
  simpa using h

/-- C8 counterexample: on a one-commit repository the standard-output
lines are not exactly header, rule, commit line, rule and count — the
header print begins with a newline, so a blank line precedes it. -/
theorem c8_counterexample :
    stdout_lines (get_commit_log env_c8 "r").1.prints ≠
      ["Commit dates and times (PST) for repository at 'r':", rule60,
       "Monday, 2024-01-15 09:00:00 PST", rule60, "Total commits: 1"] ∧
    stdout_lines (get_commit_log env_c8 "r").1.prints =
      ["", "Commit dates and times (PST) for repository at 'r':", rule60,
       "Monday, 2024-01-15 09:00:00 PST", rule60, "Total commits: 1"] := by
  exact ⟨by decide, by decide⟩

/-- C8 (amended): on success the report consists of the header print
(which begins with a newline, so stdout shows one blank line first) naming
the path, the 60-character rule, one formatted line per commit, the rule
again, and the total count line. -/
theorem c8_report_format (env : Env) (rp output : String)
    (h1 : env.path_exists rp = true)
    (h2 : env.path_exists (path_join rp ".git") = true)
    (h3 : env.git_log = GitResult.ran 0 output)
    (h4 : splitlines output ≠ [])
    (h5 : ∀ l ∈ splitlines output, good_line l = true) :
    ∃ dates, (get_commit_log env rp).2 = some dates ∧
      (get_commit_log env rp).1.prints =
        ["\nCommit dates and times (PST) for repository at '" ++ rp ++ "':", rule60]
          ++ dates.map format_line
          ++ [rule60, "Total commits: " ++ toString dates.length] := by
  have hbad : (splitlines output).filter bad_line = [] := by
    rw [List.filter_eq_nil_iff]
    intro l hl
    simp [bad_line_false_of_good l (h5 l hl)]
  have hwarnnil : (parse_lines (splitlines output)).1 = [] := by
    rw [parse_lines_eq]
    simp [hbad]
  have hfilter : (splitlines output).filter good_line = splitlines output :=
    List.filter_eq_self.mpr h5
  have hne : (parse_lines (splitlines output)).2 ≠ [] := by
    rw [parse_lines_eq]
    simp only [hfilter]
    simpa using h4
  have hmain := get_commit_log_ok env rp output h1 h2 h3 hne
  refine ⟨List.insertionSort dtLE (parse_lines (splitlines output)).2, ?_, ?_⟩
  · rw [hmain]
  · rw [hmain, hwarnnil]
    simp

/-- C8 witness: the report shape at a concrete one-commit repository. -/
theorem c8_witness :
    ∃ dates, (get_commit_log env_c8 "r").2 = some dates ∧
      (get_commit_log env_c8 "r").1.prints =
        ["\nCommit dates and times (PST) for repository at 'r':", rule60]
          ++ dates.map format_line
          ++ [rule60, "Total commits: " ++ toString dates.length] :=
  c8_report_format env_c8 "r" "2024-01-15T12:00:00-05:00" rfl rfl rfl
    (by decide) (by decide)
